import Mathlib

/-!
# Verification of the website_v2 core (palette cycler, animation orchestrator, raster sampler)

Shallow embedding of `src/main.rs`, `src/colors.rs` and `src/macros.rs`.

Rust machine integers are modelled as `Nat` with explicit `% 2^w` where the
source relies on wrapping (release-mode) arithmetic.  Rust `f64` arithmetic in
the raster sampler is modelled over `ℚ`, with the saturating `as u8` cast made
explicit.  Panicking operations (`unwrap`, `unimplemented!`, `todo!`) are
modelled as `Option`, returning `none` on the panicking path.
-/

set_option autoImplicit false

namespace Website

/-- ratatui `Color` (dependency interface): only the constructors used by the
repository are modelled.  `Color::Rgb(r, g, b)` carries three 8-bit channels. -/
inductive Color where
  | Reset
  | Black
  | White
  | DarkGray
  | LightBlue
  | Green
  | Cyan
  | Rgb (r g b : ℕ)
deriving DecidableEq

/-- ratatui `Color::from_u32`: builds `Color::Rgb` from the low 24 bits of a
32-bit word (red = bits 16..23, green = bits 8..15, blue = bits 0..7). -/
def Color.from_u32 (u : ℕ) : Color :=
  Color.Rgb (u / 65536 % 256) (u / 256 % 256) (u % 256)

/-- Whether a color is in the direct-RGB representation. -/
def Color.isRgb : Color → Bool
  | Color.Rgb _ _ _ => true
  | _ => false

/-- `ColourTheme` from `src/colors.rs`: six colors, a display name and a
private cycling index.  The field defaults are those of the derived Rust
`Default` (ratatui `Color::default()` is `Reset`, empty string, zero). -/
structure ColourTheme where
  color_bg : Color := Color.Reset
  color_fg : Color := Color.Reset
  color_bg_alt : Color := Color.Reset
  color_fg_alt : Color := Color.Reset
  color_5 : Color := Color.Reset
  color_6 : Color := Color.Reset
  name : String := ""
  id : ℕ := 0
deriving DecidableEq

/-- The derived `Default` instance of `ColourTheme`. -/
def ColourTheme.defaultTheme : ColourTheme := {}

/-- `ColourTheme::new` from `src/colors.rs`. -/
def ColourTheme.new : ColourTheme :=
  { color_bg := Color.Black
    color_fg := Color.White
    color_bg_alt := Color.DarkGray
    color_fg_alt := Color.LightBlue
    color_5 := Color.Green
    color_6 := Color.Cyan
    name := "Starter"
    id := 0 }

/-- `ColourTheme::to_yellow` from `src/colors.rs`. -/
def ColourTheme.to_yellow (s : ColourTheme) : ColourTheme :=
  { s with
    color_bg := Color.from_u32 0x2E281D
    color_fg := Color.from_u32 0xDCD0B4
    color_bg_alt := Color.from_u32 0x9A927D
    color_fg_alt := Color.from_u32 0xECC570
    color_5 := Color.from_u32 0xC9B077
    color_6 := Color.from_u32 0xAA9871
    name := "Smokey Yellow" }

/-- `ColourTheme::to_campfire` from `src/colors.rs`. -/
def ColourTheme.to_campfire (s : ColourTheme) : ColourTheme :=
  { s with
    color_bg := Color.from_u32 0x22222E
    color_fg := Color.from_u32 0x99BCC1
    color_bg_alt := Color.from_u32 0x2A4C66
    color_fg_alt := Color.from_u32 0xE6945B
    color_5 := Color.from_u32 0x912D2B
    color_6 := Color.from_u32 0x5C4954
    name := "Campfire" }

/-- `ColourTheme::to_stag` from `src/colors.rs`. -/
def ColourTheme.to_stag (s : ColourTheme) : ColourTheme :=
  { s with
    color_bg := Color.from_u32 0x000D1528
    color_fg := Color.from_u32 0x00DE92A8
    color_bg_alt := Color.from_u32 0x002A4461
    color_fg_alt := Color.from_u32 0x00CF3961
    color_5 := Color.from_u32 0x008D3950
    color_6 := Color.from_u32 0x007E4576
    name := "Stag" }

/-- `ColourTheme::switch_colour` from `src/colors.rs`: selects the next palette
setter from the current `id` (the Rust `match self.id` over the literals `1`,
`2` and catch-all), then increments `id`, wrapping to `0` past `2`. -/
def ColourTheme.switch_colour (s : ColourTheme) : ColourTheme :=
  let s1 :=
    if s.id = 1 then s.to_campfire
    else if s.id = 2 then s.to_stag
    else s.to_yellow
  let s2 := { s1 with id := s1.id + 1 }
  if s2.id > 2 then { s2 with id := 0 } else s2

/-! ## Raster sampler (`ImageShape` in `src/main.rs`) -/

/-- An RGBA pixel as produced by `DynamicImage::pixels()` in the image crate:
four 8-bit channels. -/
structure Pixel where
  r : ℕ
  g : ℕ
  b : ℕ
  a : ℕ
deriving DecidableEq

/-- The per-pixel channel sum computed by `ImageShape::new`:
`x.2.0.iter().sum::<u8>()`.  Summing `u8`s wraps modulo 256 (release-mode
semantics of repeated `u8` addition, the build shipped to the browser). -/
def Pixel.wrappedSum (p : Pixel) : ℕ := (p.r + p.g + p.b + p.a) % 256

/-- Modelled from the spec: `normalize()` "sums per-pixel channel values" — the
exact (unwrapped) integer channel sum the claim refers to. -/
def Pixel.exactSum (p : Pixel) : ℕ := p.r + p.g + p.b + p.a

/-- The greyscale value produced by `DynamicImage::to_luma8` (image crate:
sRGB luma `(2126·r + 7152·g + 722·b) / 10000` with integer division; the alpha
channel is dropped). -/
def Pixel.luma (p : Pixel) : ℕ := (2126 * p.r + 7152 * p.g + 722 * p.b) / 10000

/-- A decoded image: pixel width and the row-major pixel list (already flipped
vertically by `flipv`; the flip is irrelevant to the properties below). -/
structure Image where
  width : ℕ
  pixels : List Pixel
deriving DecidableEq

/-- Rust `Iterator::max_by` with the wrapped-channel-sum comparator from
`ImageShape::new`: folds keeping the current maximum, preferring the later
element on ties (`if cmp(acc, x) == Greater then acc else x`). -/
def maxByWrapped : Pixel → List Pixel → Pixel
  | acc, [] => acc
  | acc, p :: ps => maxByWrapped (if p.wrappedSum < acc.wrappedSum then acc else p) ps

/-- The `ColourType` enum from `src/main.rs`. -/
inductive ColourType
  | Full
  | Grey
deriving DecidableEq

/-- The `ImageShape` struct from `src/main.rs`: a decoded image, a tint color,
a colour type and the cached normalization constant `max`. -/
structure ImageShape where
  image_buffer : Image
  tint_colour : Color
  colour_type : ColourType
  max : ℕ
deriving DecidableEq

/-- `ImageShape::new` from `src/main.rs`: picks the pixel maximizing the
wrapped `u8` channel sum (`max_by … .unwrap()`, panicking — `none` — on an
image without pixels) and divides that pixel's wrapped sum by 4. -/
def ImageShape.new (img : Image) (tint_colour : Color) (colour_type : ColourType) :
    Option ImageShape :=
  match img.pixels with
  | [] => none
  | p :: ps =>
    some { image_buffer := img, tint_colour := tint_colour,
           colour_type := colour_type,
           max := (maxByWrapped p ps).wrappedSum / 4 }

/-- Rust's saturating float-to-integer cast `as u8`: truncation clamped to
`[0, 255]` (values above 255 become 255, negative values and NaN become 0). -/
def f64AsU8 (q : ℚ) : ℕ := (min 255 ⌊q⌋).toNat

/-- One painted channel in `ImageShape::draw`: `(channel as f64 * h) as u8`. -/
def paintChannel (c : ℕ) (h : ℚ) : ℕ := f64AsU8 (c * h)

/-- The brightness ratio computed in `ImageShape::draw`:
`(p.0[0] as f64) / self.max as f64`, the greyscale value over the
normalization constant. -/
def ImageShape.brightnessRatio (shape : ImageShape) (p : Pixel) : ℚ :=
  (p.luma : ℚ) / (shape.max : ℚ)

/-- The body of the per-pixel closure in `ImageShape::draw` for an `Rgb` tint:
look the pixel's cell up with `painter.get_point`; skip the pixel when the
lookup fails, otherwise paint the tinted color. -/
def ImageShape.drawPixel (shape : ImageShape)
    (getPoint : ℕ → ℕ → Option (ℕ × ℕ)) (i : ℕ) (p : Pixel) (r g b : ℕ) :
    Option ((ℕ × ℕ) × Color) :=
  match getPoint (i % shape.image_buffer.width) (i / shape.image_buffer.width) with
  | none => none
  | some pt =>
    let h := shape.brightnessRatio p
    some (pt, Color.Rgb (paintChannel r h) (paintChannel g h) (paintChannel b h))

/-- `ImageShape::draw` from `src/main.rs`: iterates the greyscale pixels in
row-major order, painting each cell whose lookup succeeds.  The source matches
on the (constant) tint color inside the loop; a non-`Rgb` tint hits
`unimplemented!`, modelled as `none`. -/
def ImageShape.draw (shape : ImageShape)
    (getPoint : ℕ → ℕ → Option (ℕ × ℕ)) : Option (List ((ℕ × ℕ) × Color)) :=
  match shape.tint_colour with
  | Color.Rgb r g b =>
    some (((List.range shape.image_buffer.pixels.length).zip
        shape.image_buffer.pixels).filterMap
      (fun ip => shape.drawPixel getPoint ip.1 ip.2 r g b))
  | _ => none

/-- The maximum of the wrapped channel sums over a pixel list. -/
def listMaxWrapped (ps : List Pixel) : ℕ :=
  ps.foldl (fun m p => max m p.wrappedSum) 0

/-- Modelled from the spec: the maximum of the exact channel sums over a pixel
list — the value the claim says `normalize()` divides by 4. -/
def listMaxExact (ps : List Pixel) : ℕ :=
  ps.foldl (fun m p => max m p.exactSum) 0

/-- The 1×1 all-white RGBA pixel (a decodable PNG content). -/
def whitePixel : Pixel := ⟨255, 255, 255, 255⟩

/-- The 1×1 all-white image. -/
def whiteImg : Image := ⟨1, [whitePixel]⟩

/-- The `ImageShape` that `ImageShape::new` builds from the all-white image:
the wrapped channel sum is `1020 % 256 = 252`, so `max = 252 / 4 = 63`. -/
def shapeWhite : ImageShape :=
  { image_buffer := whiteImg, tint_colour := Color.Rgb 0 0 0,
    colour_type := ColourType.Grey, max := 63 }

/-- An always-succeeding painter point lookup (every cell backed). -/
def gpId : ℕ → ℕ → Option (ℕ × ℕ) := fun x y => some (x, y)

/-- The shape `ImageShape::new` builds from the all-white image when tinted
with the post-startup theme background (`Smokey Yellow` bg `0x2E281D`). -/
def shapeW10 : ImageShape :=
  { image_buffer := whiteImg, tint_colour := Color.Rgb 46 40 29,
    colour_type := ColourType.Grey, max := 63 }

/-! ## Transition primitives and combinators (tachyonfx interface) -/

/-- tachyonfx `Motion`: only the variant the repository uses. -/
inductive Motion
  | DownToUp
deriving DecidableEq

/-- tachyonfx `Interpolation`: only the variant the repository uses. -/
inductive Interpolation
  | Linear
deriving DecidableEq

/-- tachyonfx `EffectTimer`. -/
structure EffectTimer where
  ms : ℕ
  interp : Interpolation
deriving DecidableEq

/-- tachyonfx `EffectTimer::from_ms`. -/
def EffectTimer.from_ms (ms : ℕ) (i : Interpolation) : EffectTimer := ⟨ms, i⟩

/-- The `ColourEvent` enum from `src/main.rs`. -/
inductive ColourEvent
  | Switch
deriving DecidableEq

/-- The combinator trees the repository builds out of tachyonfx constructors:
slide primitives, `prolong_start`, `sequence` and `dispatch_event` (the
signal-emit pseudo-child; the channel's sender end is implicit here). -/
inductive Fx where
  | slide_in (m : Motion) (gap : ℕ) (cellStep : ℕ) (c : Color) (t : EffectTimer)
  | slide_out (m : Motion) (gap : ℕ) (cellStep : ℕ) (c : Color) (t : EffectTimer)
  | prolong_start (delay : ℕ) (child : Fx)
  | sequence (children : List Fx)
  | dispatch_event (e : ColourEvent)

mutual

/-- Modelled from the spec: the total duration of a combinator tree (§4.2–4.3:
slide primitives run for their timer's duration, `prolong_start` adds its
delay, a sequence runs its children in order, and a `dispatch_event` is
instantaneously finished, zero duration). -/
def Fx.duration : Fx → ℕ
  | Fx.slide_in _ _ _ _ t => t.ms
  | Fx.slide_out _ _ _ _ t => t.ms
  | Fx.prolong_start d c => d + Fx.duration c
  | Fx.sequence cs => Fx.durationList cs
  | Fx.dispatch_event _ => 0

/-- Total duration of sequence children run in order. -/
def Fx.durationList : List Fx → ℕ
  | [] => 0
  | f :: fs => Fx.duration f + Fx.durationList fs

end

mutual

/-- Number of `dispatch_event` (signal-emit) actions embedded in a tree. -/
def Fx.countEmit : Fx → ℕ
  | Fx.slide_in _ _ _ _ _ => 0
  | Fx.slide_out _ _ _ _ _ => 0
  | Fx.prolong_start _ c => Fx.countEmit c
  | Fx.sequence cs => Fx.countEmitList cs
  | Fx.dispatch_event _ => 1

/-- Number of signal-emit actions in a child list. -/
def Fx.countEmitList : List Fx → ℕ
  | [] => 0
  | f :: fs => Fx.countEmit f + Fx.countEmitList fs

end

/-- Modelled from the spec: a combinator in playback is its (immutable) tree
plus the accumulated elapsed time (§4.2: `tick` accumulates elapsed time
against duration, monotonically). -/
structure EffectState where
  fx : Fx
  elapsed : ℕ

/-- A freshly built tachyonfx effect: no time accumulated yet. -/
def mkEffect (f : Fx) : EffectState := ⟨f, 0⟩

/-- Modelled from the spec: tachyonfx `Effect::running` — still running while
the accumulated time has not reached the total duration (§4.2/§8: finished
exactly when accumulated ≥ duration, and stays finished). -/
def EffectState.running (e : EffectState) : Bool := e.elapsed < e.fx.duration

/-- Modelled from the spec: processing an effect for `d` milliseconds
accumulates `d` onto its elapsed time. -/
def EffectState.process (e : EffectState) (d : ℕ) : EffectState :=
  { e with elapsed := e.elapsed + d }

/-- The `slide_in_and_out!` macro from `src/macros.rs`: a sequence of a
`prolong_start`-delayed slide-out and a slide-in. -/
def slide_in_and_out (t : ℕ) (c : Color) : EffectState :=
  mkEffect (Fx.sequence
    [Fx.prolong_start t
        (Fx.slide_out Motion.DownToUp 10 1 c
          (EffectTimer.from_ms 500 Interpolation.Linear)),
     Fx.slide_in Motion.DownToUp 10 1 c
        (EffectTimer.from_ms 500 Interpolation.Linear)])

/-- The `slide_in_and_out_disp!` macro from `src/macros.rs`: like
`slide_in_and_out` but with a `dispatch_event` between the slide-out and the
slide-in stages. -/
def slide_in_and_out_disp (t : ℕ) (c : Color) (e : ColourEvent) : EffectState :=
  mkEffect (Fx.sequence
    [Fx.prolong_start t
        (Fx.slide_out Motion.DownToUp 10 1 c
          (EffectTimer.from_ms 500 Interpolation.Linear)),
     Fx.dispatch_event e,
     Fx.slide_in Motion.DownToUp 10 1 c
        (EffectTimer.from_ms 500 Interpolation.Linear)])

/-- tachyonfx `SimpleRng`, modelled as an abstract stream of draws plus the
current position; `gen()` returns the next draw and advances the position. -/
structure SimpleRng where
  stream : ℕ → ℕ
  pos : ℕ

/-- `SimpleRng::gen`. -/
def SimpleRng.gen (r : SimpleRng) : ℕ × SimpleRng :=
  (r.stream r.pos, { r with pos := r.pos + 1 })

/-- `MainAnimationState` from `src/main.rs` (the `tx` sender end of the
channel is implicit in the model). -/
structure MainAnimationState where
  tabs_effect : EffectState
  title_effect : EffectState
  mini_about_effect : EffectState
  links_effect : EffectState
  about_effect : EffectState
  headshot_effect : EffectState
  help_effect : EffectState

/-- `MainAnimationState::create_fresh_animations` from `src/main.rs`: the
title region gets the signal-dispatching slide (delay 0), every other region
an independent `rng.gen() % 100` stagger delay, drawn in source order
(mini-about, links, about, headshot, tabs, help). -/
def MainAnimationState.create_fresh_animations (st : MainAnimationState)
    (bg_1 : Color) (rng : SimpleRng) : MainAnimationState × SimpleRng :=
  let title := slide_in_and_out_disp 0 bg_1 ColourEvent.Switch
  let g1 := rng.gen
  let g2 := g1.2.gen
  let g3 := g2.2.gen
  let g4 := g3.2.gen
  let g5 := g4.2.gen
  let g6 := g5.2.gen
  ({ st with
      title_effect := title
      mini_about_effect := slide_in_and_out (g1.1 % 100) bg_1
      links_effect := slide_in_and_out (g2.1 % 100) bg_1
      about_effect := slide_in_and_out (g3.1 % 100) bg_1
      headshot_effect := slide_in_and_out (g4.1 % 100) bg_1
      tabs_effect := slide_in_and_out (g5.1 % 100) bg_1
      help_effect := slide_in_and_out (g6.1 % 100) bg_1 },
   g6.2)

/-- The `Default` impl of `MainAnimationState` from `src/main.rs`: initial
slide-in animations, some behind `prolong_start` delays. -/
def MainAnimationState.defaultState : MainAnimationState :=
  let slideIn := Fx.slide_in Motion.DownToUp 10 1 (Color.from_u32 0x101010)
      (EffectTimer.from_ms 500 Interpolation.Linear)
  { tabs_effect := mkEffect slideIn
    title_effect := mkEffect slideIn
    mini_about_effect := mkEffect (Fx.prolong_start 100 slideIn)
    links_effect := mkEffect (Fx.prolong_start 150 slideIn)
    about_effect := mkEffect (Fx.prolong_start 90 slideIn)
    headshot_effect := mkEffect (Fx.prolong_start 20 slideIn)
    help_effect := mkEffect slideIn }

/-! ## Application state and the frame loop -/

/-- The `Tabs` enum from `src/main.rs` (default is `Main`). -/
inductive Tabs
  | Main
  | Blog
deriving DecidableEq

/-- ratatui `ListState`: only the selection is relevant to this core. -/
structure ListState where
  selected : Option ℕ := none
deriving DecidableEq

/-- ratatui `ListState::select_next` (select first when nothing selected). -/
def ListState.select_next (l : ListState) : ListState :=
  { l with selected := some (l.selected.elim 0 (· + 1)) }

/-- ratatui `ListState::select_previous` (`usize::MAX` when nothing
selected, saturating decrement otherwise). -/
def ListState.select_previous (l : ListState) : ListState :=
  { l with selected := some (l.selected.elim (2 ^ 64 - 1) (· - 1)) }

/-- The key codes `App::handle_events` distinguishes. -/
inductive KeyCode
  | Up
  | Down
  | CharK
  | CharJ
  | CharW
  | Enter
  | Other
deriving DecidableEq

/-- The `App` struct from `src/main.rs`.  The mpsc channel is modelled by the
FIFO `queue`: the sender pushes to the back, `try_recv` pops the front. -/
structure App where
  theme : ColourTheme
  tab : Tabs
  tabs_state : ListState
  links_state : ListState
  anims : MainAnimationState
  rng : SimpleRng
  queue : List ColourEvent

/-- mpsc `Receiver::try_recv`: non-blocking, pops the front when present. -/
def tryRecv (q : List ColourEvent) : Option ColourEvent × List ColourEvent :=
  match q with
  | [] => (none, [])
  | e :: rest => (some e, rest)

/-- `App::cycle_colour` from `src/main.rs`: reads the current background color
and rebuilds all per-region animations with it. -/
def App.cycle_colour (s : App) : App :=
  let bg_1_old := s.theme.color_bg
  let res := s.anims.create_fresh_animations bg_1_old s.rng
  { s with anims := res.1, rng := res.2 }

/-- `App::handle_events` from `src/main.rs`.  `Enter` opens a URL through the
host browser and changes no application state. -/
def App.handle_events (s : App) (k : KeyCode) : App :=
  match k with
  | KeyCode.Up => { s with links_state := s.links_state.select_previous }
  | KeyCode.CharK => { s with links_state := s.links_state.select_previous }
  | KeyCode.Down => { s with links_state := s.links_state.select_next }
  | KeyCode.CharJ => { s with links_state := s.links_state.select_next }
  | KeyCode.CharW => s.cycle_colour
  | KeyCode.Enter => s
  | KeyCode.Other => s

/-- The theme colors read while the frame's widgets are built (the `gen_*`
helpers read `color_bg`, `color_fg` and `color_fg_alt` of the current
theme). -/
structure WidgetColors where
  bg : Color
  fg : Color
  fg_alt : Color
deriving DecidableEq

/-- The color snapshot the widget builders take from a theme. -/
def widgetColors (t : ColourTheme) : WidgetColors :=
  ⟨t.color_bg, t.color_fg, t.color_fg_alt⟩

/-- Per-region outcome of the `animate!` macro in one frame: `some` of the
advanced effect when the region was processed and rendered, `none` when the
effect was no longer running and was skipped. -/
structure RenderedFx where
  title : Option EffectState
  mini_about : Option EffectState
  links : Option EffectState
  about : Option EffectState
  headshot : Option EffectState
  tabs : Option EffectState
  help : Option EffectState

/-- The observable output of one rendered frame. -/
structure Frame where
  colors : WidgetColors
  rendered : RenderedFx

/-- One arm of the `animate!` macro from `src/macros.rs`: if the effect is
running, process it for the given duration and render the processed state;
otherwise leave it untouched and render nothing. -/
def animateStep (e : EffectState) (d : ℕ) : EffectState × Option EffectState :=
  if e.running then (e.process d, some (e.process d)) else (e, none)

/-- `App::render_main` from `src/main.rs`: builds and renders the widgets from
the current theme, then runs `animate!` over the seven regions with the
hard-coded `Duration::from_millis(7)`. -/
def App.render_main (s : App) : App × Frame :=
  ({ s with anims := {
      title_effect := (animateStep s.anims.title_effect 7).1
      mini_about_effect := (animateStep s.anims.mini_about_effect 7).1
      links_effect := (animateStep s.anims.links_effect 7).1
      about_effect := (animateStep s.anims.about_effect 7).1
      headshot_effect := (animateStep s.anims.headshot_effect 7).1
      tabs_effect := (animateStep s.anims.tabs_effect 7).1
      help_effect := (animateStep s.anims.help_effect 7).1 } },
   { colors := widgetColors s.theme
     rendered :=
      { title := (animateStep s.anims.title_effect 7).2
        mini_about := (animateStep s.anims.mini_about_effect 7).2
        links := (animateStep s.anims.links_effect 7).2
        about := (animateStep s.anims.about_effect 7).2
        headshot := (animateStep s.anims.headshot_effect 7).2
        tabs := (animateStep s.anims.tabs_effect 7).2
        help := (animateStep s.anims.help_effect 7).2 } })

/-- `App::render` from `src/main.rs`: drain the channel non-blocking once,
advance the palette if a signal was present, then render the current tab
(`Blog` is `todo!`, modelled as `none`). -/
def App.render (s : App) : Option (App × Frame) :=
  let rq := tryRecv s.queue
  let theme1 := if rq.1.isSome then s.theme.switch_colour else s.theme
  let s1 := { s with theme := theme1, queue := rq.2 }
  match s1.tab with
  | Tabs.Main => some s1.render_main
  | Tabs.Blog => none

/-- A concrete startup-like application state: fresh default animations,
the draw stream fixed to zeros at position 0, empty channel. -/
def app0 : App :=
  { theme := ColourTheme.new
    tab := Tabs.Main
    tabs_state := {}
    links_state := {}
    anims := MainAnimationState.defaultState
    rng := ⟨fun _ => 0, 0⟩
    queue := [] }

/-- States of the palette cycler reachable in the program: the two construction
states (`new` and the derived `Default`) and anything obtained from them by
`switch_colour` calls. -/
inductive Reachable : ColourTheme → Prop
  | new : Reachable ColourTheme.new
  | dflt : Reachable ColourTheme.defaultTheme
  | step (s : ColourTheme) : Reachable s → Reachable s.switch_colour

/-- Equality of the visible palette: the six colors and the display name
(the private `id` is not part of the palette). -/
def paletteEq (s t : ColourTheme) : Prop :=
  s.color_bg = t.color_bg ∧ s.color_fg = t.color_fg ∧
  s.color_bg_alt = t.color_bg_alt ∧ s.color_fg_alt = t.color_fg_alt ∧
  s.color_5 = t.color_5 ∧ s.color_6 = t.color_6 ∧ s.name = t.name

instance (s t : ColourTheme) : Decidable (paletteEq s t) := by
  unfold paletteEq; infer_instance

/-- The six colors of a theme, without name and index. -/
structure Palette where
  bg : Color
  fg : Color
  bg_alt : Color
  fg_alt : Color
  c5 : Color
  c6 : Color
deriving DecidableEq

/-- Extract the six colors of a theme. -/
def themePalette (s : ColourTheme) : Palette :=
  ⟨s.color_bg, s.color_fg, s.color_bg_alt, s.color_fg_alt, s.color_5, s.color_6⟩

/-- The display name that `src/colors.rs` associates to each post-call `id`
(the setter that ran is determined by the pre-call `id`, one less modulo 3). -/
def nameOfId (i : ℕ) : String :=
  if i = 1 then "Smokey Yellow" else if i = 2 then "Campfire" else "Stag"

/-- The palette that `src/colors.rs` associates to each post-call `id`,
expressed through the setters themselves. -/
def paletteOfId (i : ℕ) : Palette :=
  if i = 1 then themePalette (ColourTheme.to_yellow {})
  else if i = 2 then themePalette (ColourTheme.to_campfire {})
  else themePalette (ColourTheme.to_stag {})

/-- `switch_colour` always leaves the index in `{0, 1, 2}`, whatever the
starting index. -/
theorem switch_colour_id_le (s : ColourTheme) : s.switch_colour.id ≤ 2 := by
  have h1 : (if s.id = 1 then s.to_campfire
      else if s.id = 2 then s.to_stag
      else s.to_yellow).id = s.id := by
    split
    · rfl
    · split <;> rfl
  simp only [ColourTheme.switch_colour, h1]
  split <;> dsimp only <;> omega

/-- Every reachable cycler state has its index in `{0, 1, 2}`. -/
theorem reachable_id_le (s : ColourTheme) (h : Reachable s) : s.id ≤ 2 := by
  induction h with
  | new => decide
  | dflt => decide
  | step t _ _ => exact switch_colour_id_le t

/-- C7 (amended): for every reachable cycler state that has undergone at least
one `switch_colour` (equivalently, every state from the startup pre-advance
onward), applying `switch_colour` three more times returns the palette — the
name and all six colors — to what it was.  (From the construction state itself
the law fails, see the counterexample.) -/
theorem c7_cycle_roundtrip (s : ColourTheme) (h : Reachable s) :
    paletteEq s.switch_colour.switch_colour.switch_colour.switch_colour
      s.switch_colour := by
  have hid := reachable_id_le s h
  have h3 : s.id = 0 ∨ s.id = 1 ∨ s.id = 2 := by omega
  rcases h3 with h0 | h0 | h0 <;>
    simp [ColourTheme.switch_colour, h0, ColourTheme.to_yellow,
      ColourTheme.to_campfire, ColourTheme.to_stag, paletteEq]

/-- C7 witness: the round-trip law, instantiated at the freshly constructed
cycler (after its first advance). -/
theorem c7_witness :
    Reachable ColourTheme.new ∧
      paletteEq
        ColourTheme.new.switch_colour.switch_colour.switch_colour.switch_colour
        ColourTheme.new.switch_colour :=
  ⟨Reachable.new, c7_cycle_roundtrip ColourTheme.new Reachable.new⟩

/-- C7 counterexample: from the reachable construction state (`"Starter"`),
three advances do NOT return to the original palette — they land on `"Stag"` —
so the claim's round-trip law fails for that reachable state. -/
theorem c7_counterexample :
    ¬ paletteEq ColourTheme.new.switch_colour.switch_colour.switch_colour
      ColourTheme.new := by
  decide

/-- C9: from any reachable state (`new`, the derived `Default`, or any prior
sequence of calls), `switch_colour` keeps the private `id` in `{0, 1, 2}`, and
after the call the palette is fully assigned with the name determined by the
post-call `id`: `1 ↦ "Smokey Yellow"`, `2 ↦ "Campfire"`, `0 ↦ "Stag"`. -/
theorem c9_switch_invariant (s : ColourTheme) (h : Reachable s) :
    s.switch_colour.id ≤ 2 ∧
      s.switch_colour.name = nameOfId s.switch_colour.id ∧
      themePalette s.switch_colour = paletteOfId s.switch_colour.id := by
  refine ⟨switch_colour_id_le s, ?_⟩
  have hid := reachable_id_le s h
  have h3 : s.id = 0 ∨ s.id = 1 ∨ s.id = 2 := by omega
  rcases h3 with h0 | h0 | h0 <;>
    simp [ColourTheme.switch_colour, h0, ColourTheme.to_yellow,
      ColourTheme.to_campfire, ColourTheme.to_stag, themePalette, paletteOfId,
      nameOfId]

/-- C9 witness: the invariant instantiated at the freshly constructed cycler. -/
theorem c9_witness :
    Reachable ColourTheme.new ∧
      (ColourTheme.new.switch_colour.id ≤ 2 ∧
        ColourTheme.new.switch_colour.name =
          nameOfId ColourTheme.new.switch_colour.id ∧
        themePalette ColourTheme.new.switch_colour =
          paletteOfId ColourTheme.new.switch_colour.id) :=
  ⟨Reachable.new, c9_switch_invariant ColourTheme.new Reachable.new⟩

/-- The `max_by` fold computes the running maximum of the wrapped sums. -/
theorem maxByWrapped_wrappedSum (a : Pixel) (l : List Pixel) :
    (maxByWrapped a l).wrappedSum =
      l.foldl (fun m p => max m p.wrappedSum) a.wrappedSum := by
  induction l generalizing a with
  | nil => rfl
  | cons p ps ih =>
    have hstep : (if p.wrappedSum < a.wrappedSum then a else p).wrappedSum =
        max a.wrappedSum p.wrappedSum := by
      split <;> omega
    rw [maxByWrapped, List.foldl_cons, ih, hstep]

/-- C1 (amended): the normalization constant computed once by
`ImageShape::new` equals the maximum over all pixels of the pixel's channel
sum computed with 8-bit wrapping arithmetic (the four RGBA channels summed
modulo 256), divided by 4 with integer division.  With the claim's exact
integer channel sums it fails, see the counterexample. -/
theorem c1_normalization (img : Image) (tint : Color) (ct : ColourType)
    (shape : ImageShape) (h : ImageShape.new img tint ct = some shape) :
    shape.max = listMaxWrapped img.pixels / 4 := by
  rcases himg : img.pixels with _ | ⟨p, ps⟩ <;>
    simp only [ImageShape.new, himg] at h
  · cases h
  · rw [Option.some.injEq] at h
    subst h
    show (maxByWrapped p ps).wrappedSum / 4 = listMaxWrapped (p :: ps) / 4
    rw [listMaxWrapped, List.foldl_cons, Nat.zero_max, maxByWrapped_wrappedSum]

/-- C1 witness: the amended normalization law evaluated on the 1×1 all-white
image, whose constant is `(1020 % 256) / 4 = 63`. -/
theorem c1_witness :
    ImageShape.new whiteImg (Color.Rgb 0 0 0) ColourType.Grey = some shapeWhite ∧
      shapeWhite.max = listMaxWrapped whiteImg.pixels / 4 :=
  ⟨by decide,
   c1_normalization whiteImg (Color.Rgb 0 0 0) ColourType.Grey shapeWhite (by decide)⟩

/-- C1 counterexample: on the decodable 1×1 all-white image the code computes
`(1020 % 256) / 4 = 63`, not the claim's exact-sum value `1020 / 4 = 255`:
the `u8` channel sum wraps modulo 256 before the division. -/
theorem c1_counterexample :
    (ImageShape.new whiteImg (Color.Rgb 0 0 0) ColourType.Grey).map ImageShape.max ≠
      some (listMaxExact whiteImg.pixels / 4) := by
  decide

/-- C2 (amended): in `ImageShape::draw`, a pixel whose painter point lookup
returns `None` is skipped — nothing is painted for it; and for looked-up
pixels (with a positive normalization constant) the brightness ratio
`luma / max` is nonnegative but is NOT always in `[0, 1]`: it is at most 1
exactly when the pixel's greyscale value is at most the normalization
constant, and exceeds 1 otherwise (see the counterexample). -/
theorem c2_draw_skip_and_ratio (shape : ImageShape)
    (getPoint : ℕ → ℕ → Option (ℕ × ℕ)) (i : ℕ) (p : Pixel) (r g b : ℕ)
    (hmax : 0 < shape.max) :
    (getPoint (i % shape.image_buffer.width) (i / shape.image_buffer.width) = none →
      shape.drawPixel getPoint i p r g b = none) ∧
    0 ≤ shape.brightnessRatio p ∧
    (shape.brightnessRatio p ≤ 1 ↔ p.luma ≤ shape.max) := by
  refine ⟨?_, ?_, ?_⟩
  · intro h
    simp [ImageShape.drawPixel, h]
  · exact div_nonneg (Nat.cast_nonneg _) (Nat.cast_nonneg _)
  · rw [ImageShape.brightnessRatio, div_le_one (by exact_mod_cast hmax)]
    exact Nat.cast_le

/-- C2 witness: the amended skip/ratio properties evaluated on the all-white
image's shape with an always-succeeding lookup. -/
theorem c2_witness :
    0 < shapeWhite.max ∧
      ((gpId (0 % shapeWhite.image_buffer.width) (0 / shapeWhite.image_buffer.width) =
          none → shapeWhite.drawPixel gpId 0 whitePixel 1 2 3 = none) ∧
        0 ≤ shapeWhite.brightnessRatio whitePixel ∧
        (shapeWhite.brightnessRatio whitePixel ≤ 1 ↔
          whitePixel.luma ≤ shapeWhite.max)) :=
  ⟨by decide, c2_draw_skip_and_ratio shapeWhite gpId 0 whitePixel 1 2 3 (by decide)⟩

/-- C2 counterexample: for the decodable 1×1 all-white image, the interior
pixel's brightness ratio is `255 / 63 > 1`, outside the claimed `[0, 1]`. -/
theorem c2_counterexample :
    ImageShape.new whiteImg (Color.Rgb 0 0 0) ColourType.Grey = some shapeWhite ∧
      ¬ shapeWhite.brightnessRatio whitePixel ≤ 1 := by
  constructor
  · decide
  · norm_num [ImageShape.brightnessRatio, Pixel.luma, shapeWhite, whitePixel]

/-- C4: every painted channel value `(channel as f64 * h) as u8` of
`ImageShape::draw` lies in `[0, 255]` for every tint channel and every
brightness ratio, including ratios above 1: the Rust float-to-int `as` cast
saturates, so the value is clamped to the channel range — at ratio 2 a channel
of 200 paints 255, not the wrapped `400 % 256 = 144` — and no panic occurs. -/
theorem c4_paint_clamped :
    (∀ (c : ℕ) (h : ℚ), 0 ≤ paintChannel c h ∧ paintChannel c h ≤ 255) ∧
      paintChannel 200 2 = 255 ∧
      (⌊(200 : ℚ) * 2⌋.toNat % 256 = 144) ∧
      paintChannel 200 2 ≠ ⌊(200 : ℚ) * 2⌋.toNat % 256 := by
  refine ⟨?_, ?_, ?_, ?_⟩
  · intro c h
    refine ⟨Nat.zero_le _, ?_⟩
    unfold paintChannel f64AsU8
    have hle : (min 255 ⌊(c : ℚ) * h⌋) ≤ (255 : ℤ) := min_le_left _ _
    omega
  · norm_num [paintChannel, f64AsU8]
    decide
  · norm_num
    decide
  · norm_num [paintChannel, f64AsU8]
    decide

/-- `ImageShape::draw` reaches a result (never `unimplemented!`) whenever the
tint is a direct `Rgb` color. -/
theorem isRgb_draw_isSome (shape : ImageShape)
    (getPoint : ℕ → ℕ → Option (ℕ × ℕ)) (h : shape.tint_colour.isRgb = true) :
    (shape.draw getPoint).isSome = true := by
  rw [ImageShape.draw]
  rcases hc : shape.tint_colour with _ | _ | _ | _ | _ | _ | _ | ⟨r, g, b⟩ <;>
    rw [hc] at h <;>
    first
      | rfl
      | exact absurd h (by decide)

/-- C3: in every render frame (`App::render` on the `Main` tab) the deferred
signal channel is polled non-blocking exactly once — exactly the front element
is consumed — the palette advances exactly once when a signal was present and
not at all otherwise (never twice, however many signals are queued), and the
frame's widget colors are computed from the post-drain theme: the drain
happens strictly before the colors. -/
theorem c3_drain_before_colors (s : App) :
    ((App.render { s with tab := Tabs.Main }).map fun sf => sf.1.queue) =
        some s.queue.tail ∧
      ((App.render { s with tab := Tabs.Main }).map fun sf => sf.1.theme) =
        some (if s.queue = [] then s.theme else s.theme.switch_colour) ∧
      ((App.render { s with tab := Tabs.Main }).map fun sf => sf.2.colors) =
        some (widgetColors
          (if s.queue = [] then s.theme else s.theme.switch_colour)) := by
  rcases hq : s.queue with _ | ⟨e, rest⟩ <;>
    simp [App.render, App.render_main, tryRecv, hq, widgetColors]

/-- C5: on every palette-switch request, `create_fresh_animations` gives
exactly one region — the title — a combinator that embeds the signal emit
between its slide-out stage and its slide-in stage; every other region's
combinator contains no signal emit and instead uses an independently drawn
`gen() % 100` stagger delay (strictly below 100) before its slide-out. -/
theorem c5_emit_placement (st : MainAnimationState) (bg : Color)
    (rng : SimpleRng) :
    ((st.create_fresh_animations bg rng).1.title_effect.fx =
        Fx.sequence
          [Fx.prolong_start 0
              (Fx.slide_out Motion.DownToUp 10 1 bg
                (EffectTimer.from_ms 500 Interpolation.Linear)),
           Fx.dispatch_event ColourEvent.Switch,
           Fx.slide_in Motion.DownToUp 10 1 bg
              (EffectTimer.from_ms 500 Interpolation.Linear)] ∧
      Fx.countEmit (st.create_fresh_animations bg rng).1.title_effect.fx = 1) ∧
    ((st.create_fresh_animations bg rng).1.mini_about_effect =
        slide_in_and_out (rng.stream rng.pos % 100) bg ∧
      Fx.countEmit (st.create_fresh_animations bg rng).1.mini_about_effect.fx = 0 ∧
      rng.stream rng.pos % 100 < 100) ∧
    ((st.create_fresh_animations bg rng).1.links_effect =
        slide_in_and_out (rng.stream (rng.pos + 1) % 100) bg ∧
      Fx.countEmit (st.create_fresh_animations bg rng).1.links_effect.fx = 0 ∧
      rng.stream (rng.pos + 1) % 100 < 100) ∧
    ((st.create_fresh_animations bg rng).1.about_effect =
        slide_in_and_out (rng.stream (rng.pos + 1 + 1) % 100) bg ∧
      Fx.countEmit (st.create_fresh_animations bg rng).1.about_effect.fx = 0 ∧
      rng.stream (rng.pos + 1 + 1) % 100 < 100) ∧
    ((st.create_fresh_animations bg rng).1.headshot_effect =
        slide_in_and_out (rng.stream (rng.pos + 1 + 1 + 1) % 100) bg ∧
      Fx.countEmit (st.create_fresh_animations bg rng).1.headshot_effect.fx = 0 ∧
      rng.stream (rng.pos + 1 + 1 + 1) % 100 < 100) ∧
    ((st.create_fresh_animations bg rng).1.tabs_effect =
        slide_in_and_out (rng.stream (rng.pos + 1 + 1 + 1 + 1) % 100) bg ∧
      Fx.countEmit (st.create_fresh_animations bg rng).1.tabs_effect.fx = 0 ∧
      rng.stream (rng.pos + 1 + 1 + 1 + 1) % 100 < 100) ∧
    ((st.create_fresh_animations bg rng).1.help_effect =
        slide_in_and_out (rng.stream (rng.pos + 1 + 1 + 1 + 1 + 1) % 100) bg ∧
      Fx.countEmit (st.create_fresh_animations bg rng).1.help_effect.fx = 0 ∧
      rng.stream (rng.pos + 1 + 1 + 1 + 1 + 1) % 100 < 100) :=
  ⟨⟨rfl, rfl⟩,
   ⟨rfl, rfl, Nat.mod_lt _ (by norm_num)⟩,
   ⟨rfl, rfl, Nat.mod_lt _ (by norm_num)⟩,
   ⟨rfl, rfl, Nat.mod_lt _ (by norm_num)⟩,
   ⟨rfl, rfl, Nat.mod_lt _ (by norm_num)⟩,
   ⟨rfl, rfl, Nat.mod_lt _ (by norm_num)⟩,
   ⟨rfl, rfl, Nat.mod_lt _ (by norm_num)⟩⟩

/-- C6 (amended): on each render frame every region's combinator that is still
running (not yet finished) is advanced by the hard-coded 7 ms duration — the
`Duration::from_millis(7)` at the `animate!` call in `render_main` — NOT by
the frame's real elapsed time, and the frame then renders the advanced state;
a finished combinator is neither ticked nor rendered. -/
theorem c6_frame_tick (s : App) :
    (((App.render { s with tab := Tabs.Main }).map fun sf =>
        sf.1.anims.title_effect) =
      some (if s.anims.title_effect.running then
              s.anims.title_effect.process 7
            else s.anims.title_effect) ∧
     ((App.render { s with tab := Tabs.Main }).map fun sf =>
        sf.2.rendered.title) =
      some (if s.anims.title_effect.running then
              some (s.anims.title_effect.process 7)
            else none)) ∧
    (((App.render { s with tab := Tabs.Main }).map fun sf =>
        sf.1.anims.mini_about_effect) =
      some (if s.anims.mini_about_effect.running then
              s.anims.mini_about_effect.process 7
            else s.anims.mini_about_effect) ∧
     ((App.render { s with tab := Tabs.Main }).map fun sf =>
        sf.2.rendered.mini_about) =
      some (if s.anims.mini_about_effect.running then
              some (s.anims.mini_about_effect.process 7)
            else none)) ∧
    (((App.render { s with tab := Tabs.Main }).map fun sf =>
        sf.1.anims.links_effect) =
      some (if s.anims.links_effect.running then
              s.anims.links_effect.process 7
            else s.anims.links_effect) ∧
     ((App.render { s with tab := Tabs.Main }).map fun sf =>
        sf.2.rendered.links) =
      some (if s.anims.links_effect.running then
              some (s.anims.links_effect.process 7)
            else none)) ∧
    (((App.render { s with tab := Tabs.Main }).map fun sf =>
        sf.1.anims.about_effect) =
      some (if s.anims.about_effect.running then
              s.anims.about_effect.process 7
            else s.anims.about_effect) ∧
     ((App.render { s with tab := Tabs.Main }).map fun sf =>
        sf.2.rendered.about) =
      some (if s.anims.about_effect.running then
              some (s.anims.about_effect.process 7)
            else none)) ∧
    (((App.render { s with tab := Tabs.Main }).map fun sf =>
        sf.1.anims.headshot_effect) =
      some (if s.anims.headshot_effect.running then
              s.anims.headshot_effect.process 7
            else s.anims.headshot_effect) ∧
     ((App.render { s with tab := Tabs.Main }).map fun sf =>
        sf.2.rendered.headshot) =
      some (if s.anims.headshot_effect.running then
              some (s.anims.headshot_effect.process 7)
            else none)) ∧
    (((App.render { s with tab := Tabs.Main }).map fun sf =>
        sf.1.anims.tabs_effect) =
      some (if s.anims.tabs_effect.running then
              s.anims.tabs_effect.process 7
            else s.anims.tabs_effect) ∧
     ((App.render { s with tab := Tabs.Main }).map fun sf =>
        sf.2.rendered.tabs) =
      some (if s.anims.tabs_effect.running then
              some (s.anims.tabs_effect.process 7)
            else none)) ∧
    (((App.render { s with tab := Tabs.Main }).map fun sf =>
        sf.1.anims.help_effect) =
      some (if s.anims.help_effect.running then
              s.anims.help_effect.process 7
            else s.anims.help_effect) ∧
     ((App.render { s with tab := Tabs.Main }).map fun sf =>
        sf.2.rendered.help) =
      some (if s.anims.help_effect.running then
              some (s.anims.help_effect.process 7)
            else none)) := by
  refine ⟨⟨?_, ?_⟩, ⟨?_, ?_⟩, ⟨?_, ?_⟩, ⟨?_, ?_⟩, ⟨?_, ?_⟩, ⟨?_, ?_⟩, ⟨?_, ?_⟩⟩ <;>
    simp only [App.render, App.render_main, animateStep, Option.map_some',
      Option.some.injEq] <;>
    split <;> simp_all

/-- C6 counterexample: in a frame whose real elapsed time since the previous
frame is 12 ms, the running title combinator is advanced by 7 ms, not by the
elapsed 12 ms, so "advanced by the frame's elapsed-time delta — the real
elapsed time since the previous frame" is false. -/
theorem c6_counterexample :
    ((App.render app0).map fun sf => sf.1.anims.title_effect.elapsed) ≠
      some (app0.anims.title_effect.elapsed + 12) := by
  decide

/-- C8 (amended): handling the palette-switch key `'W'` rebuilds only the
per-region animation combinators and advances the pseudo-random generator
state (the six stagger draws); the palette cycler's current palette — colors,
name and index — and every other field (tab, both list states, the channel)
are unchanged: the input handler never mutates the palette. -/
theorem c8_cycle_isolated (s : App) :
    (App.handle_events s KeyCode.CharW).theme = s.theme ∧
      (App.handle_events s KeyCode.CharW).tab = s.tab ∧
      (App.handle_events s KeyCode.CharW).tabs_state = s.tabs_state ∧
      (App.handle_events s KeyCode.CharW).links_state = s.links_state ∧
      (App.handle_events s KeyCode.CharW).queue = s.queue ∧
      (App.handle_events s KeyCode.CharW).rng.stream = s.rng.stream ∧
      (App.handle_events s KeyCode.CharW).anims =
        (s.anims.create_fresh_animations s.theme.color_bg s.rng).1 ∧
      (App.handle_events s KeyCode.CharW).rng =
        (s.anims.create_fresh_animations s.theme.color_bg s.rng).2 :=
  ⟨rfl, rfl, rfl, rfl, rfl, rfl, rfl, rfl⟩

/-- C8 counterexample: from a concrete startup state, handling `'W'` changes
the RNG state (the draw position advances past the six stagger draws), so the
claim's "all other application state unchanged" fails. -/
theorem c8_counterexample :
    (App.handle_events app0 KeyCode.CharW).rng.pos ≠ app0.rng.pos := by
  decide

/-- C10: after any `switch_colour` call — in particular the single startup
pre-advance in `main`, and preserved by every later call — all six color
fields of the active theme are `Color::Rgb` values (each palette setter builds
them with `Color::from_u32`), so the `unimplemented!` branch of
`ImageShape::draw` is unreachable when the headshot is painted with the
theme's background color as tint: `draw` always produces a result. -/
theorem c10_theme_rgb_draw_safe (s : ColourTheme) (img : Image)
    (ct : ColourType) (getPoint : ℕ → ℕ → Option (ℕ × ℕ))
    (shape : ImageShape) :
    (s.switch_colour.color_bg.isRgb = true ∧
      s.switch_colour.color_fg.isRgb = true ∧
      s.switch_colour.color_bg_alt.isRgb = true ∧
      s.switch_colour.color_fg_alt.isRgb = true ∧
      s.switch_colour.color_5.isRgb = true ∧
      s.switch_colour.color_6.isRgb = true) ∧
    (ImageShape.new img s.switch_colour.color_bg ct = some shape →
      (shape.draw getPoint).isSome = true) := by
  have hrgb : s.switch_colour.color_bg.isRgb = true ∧
      s.switch_colour.color_fg.isRgb = true ∧
      s.switch_colour.color_bg_alt.isRgb = true ∧
      s.switch_colour.color_fg_alt.isRgb = true ∧
      s.switch_colour.color_5.isRgb = true ∧
      s.switch_colour.color_6.isRgb = true := by
    rcases hid : s.id with _ | _ | _ | n <;>
      simp [ColourTheme.switch_colour, hid, ColourTheme.to_campfire,
        ColourTheme.to_stag, ColourTheme.to_yellow, Color.from_u32,
        Color.isRgb]
  refine ⟨hrgb, fun hnew => ?_⟩
  have htint : shape.tint_colour = s.switch_colour.color_bg := by
    rcases himg : img.pixels with _ | ⟨p, ps⟩ <;>
      simp only [ImageShape.new, himg] at hnew
    · cases hnew
    · rw [Option.some.injEq] at hnew
      rw [← hnew]
  exact isRgb_draw_isSome shape getPoint (by rw [htint]; exact hrgb.1)

/-- C10 witness: the draw-safety fact evaluated on the all-white image tinted
with the post-startup theme background. -/
theorem c10_witness :
    ImageShape.new whiteImg ColourTheme.new.switch_colour.color_bg
        ColourType.Grey = some shapeW10 ∧
      (shapeW10.draw gpId).isSome = true :=
  ⟨by decide,
   (c10_theme_rgb_draw_safe ColourTheme.new whiteImg ColourType.Grey gpId
      shapeW10).2 (by decide)⟩

end Website
